import Mathlib

/-!
Shallow embedding of `netlify/functions/get-reformulation.js`, the single
serverless request handler of this repository.

Modelling choices, all driven by the JavaScript source:

* The handler body is a linear pipeline with two awaited `fetch` calls
  (reCAPTCHA verification, then Google AI generation).  Both external
  services are modelled as oracle parameters: the handler receives the
  verification JSON (`RecaptchaData`) and the generation HTTP response
  (`GenResponse`) it would observe, and the result records which of the
  two outbound calls were actually issued (`calledVerification`,
  `calledGeneration`).
* `JSON.parse(event.body)` followed by destructuring into
  `inputText`, `style`, `token` is runtime-provided, so the model carries
  its outcome (`ParsedBody`): either the message of the thrown exception,
  or the three destructured fields, each `Option String` (`none` encodes
  an absent field, i.e. JavaScript `undefined`).
* JavaScript truthiness on the values involved: a string is falsy iff it
  is empty or `undefined` (`truthyStr`); `recaptchaData.success` is truthy
  iff it is the boolean `true` (`truthyBool`); `recaptchaData.score < 0.5`
  is `false` when `score` is `undefined` (a NaN comparison), captured by
  `scoreLtHalf` with scores as rationals.
* `result.candidates[0].content?.parts?.[0]?.text` throws a `TypeError`
  when `candidates` is a present but empty array (`candidates[0]` is
  `undefined` and `.content` is an unguarded access); every other missing
  link is absorbed by optional chaining and yields `undefined`.  This is
  `extractText`.
* `JSON.stringify` on the two object literals the handler returns is
  embedded by `stringifyReformulated` / `stringifyError`, including the
  ECMAScript string-escaping rules (`jsonEscape`).
* The prompt template, the generation request payload and the sampling
  parameters are sent to the generation service, whose reply is already an
  oracle parameter here, so they do not influence any observable of the
  handler and are not needed by the properties below.
* `console.error` / `console.warn` logging has no caller-visible effect
  and is not modelled.
-/

namespace GetReformulation

/-- JavaScript truthiness of a possibly-absent string value:
`undefined` and `""` are falsy, every other string is truthy. -/
def truthyStr : Option String → Bool
  | none => false
  | some s => if s = "" then false else true

/-- JavaScript truthiness of a possibly-absent boolean value:
only the boolean `true` is truthy. -/
def truthyBool : Option Bool → Bool
  | none => false
  | some b => b

/-- The source's `recaptchaData.score < 0.5`.  When `score` is absent the
JavaScript comparison `undefined < 0.5` evaluates to `false` (NaN
comparison), so a missing score does NOT trigger rejection. -/
def scoreLtHalf : Option ℚ → Bool
  | none => false
  | some s => decide (s < mkRat 1 2)

/-- Outcome of `JSON.parse(event.body)` followed by destructuring into
`{ inputText, style, token }`.  `malformed` carries the message of the
exception thrown by `JSON.parse` (or by destructuring a non-object);
`fields` carries the three destructured values, `none` for a key that is
absent from the parsed object. -/
inductive ParsedBody where
  | malformed (errMsg : String)
  | fields (inputText style token : Option String)
deriving DecidableEq

/-- The inbound event: HTTP method and (the parse outcome of) the body. -/
structure Event where
  httpMethod : String
  body : ParsedBody
deriving DecidableEq

/-- The two environment-sourced secrets, `process.env.GEMINI_API_KEY` and
`process.env.RECAPTCHA_SECRET_KEY`; `none` when the variable is unset. -/
structure Env where
  API_KEY : Option String
  RECAPTCHA_SECRET : Option String
deriving DecidableEq

/-- The JSON returned by the reCAPTCHA verification service; other fields
of the real response are never read by the handler. -/
structure RecaptchaData where
  success : Option Bool
  score : Option ℚ
deriving DecidableEq

/-- One part of a candidate's content, `{ text: ... }`. -/
structure Part where
  text : Option String
deriving DecidableEq

/-- A candidate's content, `{ parts: [...] }`. -/
structure Content where
  parts : Option (List Part)
deriving DecidableEq

/-- One generation candidate, `{ content: {...} }`. -/
structure Candidate where
  content : Option Content
deriving DecidableEq

/-- The parsed JSON body of the generation response. -/
structure GenResult where
  candidates : Option (List Candidate)
deriving DecidableEq

/-- The generation service's HTTP response as observed by the handler:
`ok`/`status`/`statusText` of the fetch response, the raw error body the
source reads with `response.text()` on the non-ok path, and the parsed
JSON it reads with `response.json()` on the ok path. -/
structure GenResponse where
  ok : Bool
  status : Nat
  statusText : String
  errorBody : String
  result : GenResult
deriving DecidableEq

/-- Outcome of evaluating `result.candidates[0].content?.parts?.[0]?.text`
together with the guard `!result.candidates || !(...)`. -/
inductive ExtractOutcome where
  | invalid
  | thrown (errMsg : String)
  | valid (text : String)
deriving DecidableEq

/-- The guard and extraction of step 8 of the source:
`!result.candidates` sends an absent `candidates` to the invalid branch;
`candidates[0].content` throws a `TypeError` when `candidates` is a
present but EMPTY array (an empty array is truthy in JavaScript, and
`candidates[0]` is `undefined` with no optional chaining before
`.content`); from `.content` on, optional chaining turns every missing
link into `undefined`, which is falsy, as is an empty `text`. -/
def extractText (r : GenResult) : ExtractOutcome :=
  match r.candidates with
  | none => .invalid
  | some [] => .thrown "Cannot read properties of undefined (reading \x27content\x27)"
  | some (c :: _) =>
    match c.content with
    | none => .invalid
    | some ct =>
      match ct.parts with
      | none => .invalid
      | some [] => .invalid
      | some (p :: _) =>
        match p.text with
        | none => .invalid
        | some t => if t = "" then .invalid else .valid t

/-- Hexadecimal digit in lowercase, as produced by JavaScript
`Number.prototype.toString(16)`. -/
def hexDigit (n : Nat) : Char :=
  if n < 10 then Char.ofNat (48 + n) else Char.ofNat (87 + n)

/-- Four-digit lowercase hexadecimal rendering of a code point below
0x10000, as used in a JSON `\u` escape. -/
def hex4 (n : Nat) : String :=
  String.mk [hexDigit ((n / 4096) % 16), hexDigit ((n / 256) % 16),
             hexDigit ((n / 16) % 16), hexDigit (n % 16)]

/-- Escaping of one character inside a JSON string literal, per the
ECMAScript `QuoteJSONString` algorithm used by `JSON.stringify`. -/
def escapeChar (c : Char) : String :=
  if c = '"' then "\\\""
  else if c = '\\' then "\\\\"
  else if c = Char.ofNat 8 then "\\b"
  else if c = Char.ofNat 12 then "\\f"
  else if c = '\n' then "\\n"
  else if c = '\r' then "\\r"
  else if c = '\t' then "\\t"
  else if c.toNat < 32 then "\\u" ++ hex4 c.toNat
  else String.singleton c

/-- Body of a JSON string literal for `s`, per `JSON.stringify`. -/
def jsonEscape (s : String) : String :=
  String.join (s.toList.map escapeChar)

/-- A JSON string literal for `s`, per `JSON.stringify`. -/
def jsonQuote (s : String) : String :=
  "\"" ++ jsonEscape s ++ "\""

/-- The source's `JSON.stringify({ reformulatedText: t })`. -/
def stringifyReformulated (t : String) : String :=
  "\x7b\"reformulatedText\":" ++ jsonQuote t ++ "\x7d"

/-- The source's `JSON.stringify({ error: m })` in the catch-all. -/
def stringifyError (m : String) : String :=
  "\x7b\"error\":" ++ jsonQuote m ++ "\x7d"

/-- The handler's observable outcome: the returned status code and body,
plus which of the two outbound fetches were issued during the run. -/
structure HandlerResult where
  statusCode : Nat
  body : String
  calledVerification : Bool
  calledGeneration : Bool
deriving DecidableEq

/-- The embedded `exports.handler`.  Step by step, following the source:
method check (405), `JSON.parse` of the body (a parse exception reaches
the catch-all, 500 with `{"error": message}`), required-field check (400),
secret check (500), reCAPTCHA verification (403 when `!success` or
`score < 0.5`), generation call (non-ok status relayed with a message
built from `statusText`), shape guard on the generation JSON (500, or the
catch-all when `candidates` is a present empty array), and the 200
success response `{"reformulatedText": text}`. -/
def handler (event : Event) (env : Env) (recaptchaData : RecaptchaData)
    (genResponse : GenResponse) : HandlerResult :=
  if event.httpMethod ≠ "POST" then
    ⟨405, "Method Not Allowed", false, false⟩
  else
    match event.body with
    | .malformed errMsg =>
      ⟨500, stringifyError errMsg, false, false⟩
    | .fields inputText style token =>
      if !truthyStr inputText || !truthyStr style || !truthyStr token then
        ⟨400, "Missing inputText, style, or token", false, false⟩
      else if !truthyStr env.API_KEY || !truthyStr env.RECAPTCHA_SECRET then
        ⟨500, "Server configuration error. Please contact the administrator.", false, false⟩
      else if !truthyBool recaptchaData.success || scoreLtHalf recaptchaData.score then
        ⟨403, "Forbidden. Bot-like activity detected.", true, false⟩
      else if !genResponse.ok then
        ⟨genResponse.status, "Google AI Error: " ++ genResponse.statusText, true, true⟩
      else
        match extractText genResponse.result with
        | .thrown errMsg => ⟨500, stringifyError errMsg, true, true⟩
        | .invalid => ⟨500, "Invalid response from Google AI.", true, true⟩
        | .valid t => ⟨200, stringifyReformulated t, true, true⟩

/-- A request body holding the three required fields of the spec's
concrete scenario. -/
def goodFields : ParsedBody :=
  .fields (some "Hello world") (some "pirate") (some "abc")

/-- A well-formed POST event. -/
def evOK : Event := ⟨"POST", goodFields⟩

/-- Both secrets configured. -/
def envOK : Env := ⟨some "test-api-key", some "test-recaptcha-secret"⟩

/-- Missing generation API key. -/
def envNoKey : Env := ⟨none, some "test-recaptcha-secret"⟩

/-- Verification passed with a high score, 0.9. -/
def rcOK : RecaptchaData := ⟨some true, some (mkRat 9 10)⟩

/-- Verification reporting `success=true` with score exactly 0.5. -/
def rcHalf : RecaptchaData := ⟨some true, some (mkRat 1 2)⟩

/-- Verification reporting `success=false` (and a high score, 0.9). -/
def rcFail : RecaptchaData := ⟨some false, some (mkRat 9 10)⟩

/-- Verification reporting `success=true` with no `score` field. -/
def rcNoScore : RecaptchaData := ⟨some true, none⟩

/-- A generation response with one candidate carrying the text of the
spec's concrete scenario. -/
def genOK : GenResponse :=
  ⟨true, 200, "OK", "", ⟨some [⟨some ⟨some [⟨some "Ahoy, world!"⟩]⟩⟩]⟩⟩

/-- A rate-limited generation response. -/
def gen429 : GenResponse :=
  ⟨false, 429, "Too Many Requests", "quota exceeded details", ⟨none⟩⟩

/-- An ok generation response whose JSON has a present but empty
`candidates` array. -/
def genEmptyCandidates : GenResponse := ⟨true, 200, "OK", "", ⟨some []⟩⟩

/-- An ok generation response with no `candidates` field at all. -/
def genNoCandidates : GenResponse := ⟨true, 200, "OK", "", ⟨none⟩⟩

/-- An ok generation response whose first candidate's first part has an
empty `text`, followed by a part with non-empty text. -/
def genEmptyThenGood : GenResponse :=
  ⟨true, 200, "OK", "", ⟨some [⟨some ⟨some [⟨some ""⟩, ⟨some "Ahoy, world!"⟩]⟩⟩]⟩⟩

/-- An ok generation response whose only part has empty `text`. -/
def genEmptyText : GenResponse :=
  ⟨true, 200, "OK", "", ⟨some [⟨some ⟨some [⟨some ""⟩]⟩⟩]⟩⟩

/-- Helper: the extraction succeeds when the first candidate's content has
a first part with a non-empty `text`. -/
theorem extractText_valid (r : GenResult) (c : Candidate) (cs : List Candidate)
    (ct : Content) (p : Part) (ps : List Part) (txt : String)
    (hcand : r.candidates = some (c :: cs)) (hct : c.content = some ct)
    (hparts : ct.parts = some (p :: ps)) (htext : p.text = some txt) (hne : txt ≠ "") :
    extractText r = .valid txt := by
  simp [extractText, hcand, hct, hparts, htext, hne]

/-- Helper: the extraction lands in the invalid branch whenever
`candidates` is absent, or a first candidate exists but its `content`,
`parts`, first part or `text` is missing. -/
theorem extractText_invalid_of_shape (r : GenResult)
    (hshape : r.candidates = none ∨
      ∃ c cs, r.candidates = some (c :: cs) ∧
        (c.content = none ∨ ∃ ct, c.content = some ct ∧
          (ct.parts = none ∨ ct.parts = some [] ∨
           ∃ p ps, ct.parts = some (p :: ps) ∧ p.text = none))) :
    extractText r = .invalid := by
  rcases hshape with h | ⟨c, cs, hc, h⟩
  · simp [extractText, h]
  rcases h with h1 | ⟨ct, hct, h2⟩
  · simp [extractText, hc, h1]
  rcases h2 with h3 | h3 | ⟨p, ps, hp, htx⟩
  · simp [extractText, hc, hct, h3]
  · simp [extractText, hc, hct, h3]
  · simp [extractText, hc, hct, hp, htx]

/-- C1: counterexample.  The claim says a verification response with
`success=true` and score ≤ 0.5 yields 403 with no generation call, but the
source rejects only on `score < 0.5`: at score exactly 0.5 the request is
accepted, the generation service IS called and (here) 200 is returned. -/
theorem C1_counterexample :
    rcHalf.success = some true ∧ rcHalf.score = some (mkRat 1 2) ∧
    (handler evOK envOK rcHalf genOK).statusCode = 200 ∧
    (handler evOK envOK rcHalf genOK).statusCode ≠ 403 ∧
    (handler evOK envOK rcHalf genOK).calledGeneration = true := by
  refine ⟨rfl, rfl, ?_, ?_, ?_⟩ <;> decide

/-- C1 (amended): for every run that reaches verification (method POST,
all three fields truthy, both secrets present), if the verification
response has `success` not equal to `true`, or a score strictly below
0.5, the handler returns 403 "Forbidden" and the generation service is
never called.  (Score exactly 0.5 with `success=true` is accepted.) -/
theorem C1_amended (i s t : Option String) (env : Env) (rc : RecaptchaData)
    (g : GenResponse)
    (hi : truthyStr i = true) (hs : truthyStr s = true) (ht : truthyStr t = true)
    (hk : truthyStr env.API_KEY = true) (hr : truthyStr env.RECAPTCHA_SECRET = true)
    (hrej : truthyBool rc.success = false ∨ scoreLtHalf rc.score = true) :
    handler ⟨"POST", .fields i s t⟩ env rc g =
      ⟨403, "Forbidden. Bot-like activity detected.", true, false⟩ := by
  rcases hrej with h | h <;> simp [handler, hi, hs, ht, hk, hr, h]

/-- C1 (amended) witness: a `success=false` verification response on an
otherwise valid request is rejected with 403, generation never called. -/
theorem C1_amended_witness :
    truthyBool rcFail.success = false ∧
    handler ⟨"POST", ParsedBody.fields (some "Hello world") (some "pirate") (some "abc")⟩
        envOK rcFail genOK =
      ⟨403, "Forbidden. Bot-like activity detected.", true, false⟩ :=
  ⟨by decide,
   C1_amended (some "Hello world") (some "pirate") (some "abc") envOK rcFail genOK
     (by decide) (by decide) (by decide) (by decide) (by decide) (Or.inl (by decide))⟩

/-- C2: counterexample.  The claim says a malformed JSON body yields 400,
but `JSON.parse` throws and the catch-all returns 500 with a JSON error
body, not 400. -/
theorem C2_counterexample :
    (handler ⟨"POST", .malformed "Unexpected token"⟩ envOK rcOK genOK).statusCode = 500 ∧
    (handler ⟨"POST", .malformed "Unexpected token"⟩ envOK rcOK genOK).statusCode ≠ 400 ∧
    (handler ⟨"POST", .malformed "Unexpected token"⟩ envOK rcOK genOK).calledVerification = false ∧
    (handler ⟨"POST", .malformed "Unexpected token"⟩ envOK rcOK genOK).calledGeneration = false := by
  refine ⟨?_, ?_, ?_, ?_⟩ <;> decide

/-- C2 (amended): for every POST request, a body that is valid JSON but
missing (or carrying an empty/falsy) `inputText`, `style` or `token`
yields 400, while a malformed JSON body makes `JSON.parse` throw and
yields 500 via the catch-all; in both cases no external call is made. -/
theorem C2_amended (env : Env) (rc : RecaptchaData) (g : GenResponse) (b : ParsedBody)
    (hbad : (∃ m, b = .malformed m) ∨
            ∃ i s t, b = .fields i s t ∧
              (truthyStr i = false ∨ truthyStr s = false ∨ truthyStr t = false)) :
    (handler ⟨"POST", b⟩ env rc g).statusCode =
      (match b with | .malformed _ => 500 | .fields _ _ _ => 400) ∧
    (handler ⟨"POST", b⟩ env rc g).calledVerification = false ∧
    (handler ⟨"POST", b⟩ env rc g).calledGeneration = false := by
  rcases hbad with ⟨m, rfl⟩ | ⟨i, s, t, rfl, hf⟩
  · simp [handler]
  · rcases hf with h | h | h <;> simp [handler, h]

/-- C2 (amended) witness: a POST whose parsed body has no `style` field is
answered with 400 and neither external service is called. -/
theorem C2_amended_witness :
    (handler ⟨"POST", .fields (some "x") none (some "tok")⟩ envOK rcOK genOK).statusCode = 400 ∧
    (handler ⟨"POST", .fields (some "x") none (some "tok")⟩ envOK rcOK genOK).calledVerification = false ∧
    (handler ⟨"POST", .fields (some "x") none (some "tok")⟩ envOK rcOK genOK).calledGeneration = false := by
  have h := C2_amended envOK rcOK genOK (.fields (some "x") none (some "tok"))
    (Or.inr ⟨some "x", none, some "tok", rfl, Or.inr (Or.inl rfl)⟩)
  exact ⟨h.1, h.2.1, h.2.2⟩

/-- C3: counterexample.  The claim says a missing secret yields 500
regardless of payload validity, but the required-field check runs BEFORE
the secret check: with the generation API key absent and a payload
missing `token`, the handler returns 400, not 500. -/
theorem C3_counterexample :
    envNoKey.API_KEY = none ∧
    (handler ⟨"POST", .fields (some "Hello world") (some "pirate") none⟩
        envNoKey rcOK genOK).statusCode = 400 ∧
    (handler ⟨"POST", .fields (some "Hello world") (some "pirate") none⟩
        envNoKey rcOK genOK).statusCode ≠ 500 := by
  refine ⟨rfl, ?_, ?_⟩ <;> decide

/-- C3 (amended): if either secret is absent from the environment, no
external call is ever made, and a POST request whose body parses with all
three fields truthy is answered with 500; an invalid payload instead
short-circuits earlier (405/400/catch-all), so the 500 is not
unconditional. -/
theorem C3_amended (m : String) (b : ParsedBody) (env : Env) (rc : RecaptchaData)
    (g : GenResponse)
    (hsec : env.API_KEY = none ∨ env.RECAPTCHA_SECRET = none) :
    (handler ⟨m, b⟩ env rc g).calledVerification = false ∧
    (handler ⟨m, b⟩ env rc g).calledGeneration = false ∧
    (∀ i s t, m = "POST" → b = .fields i s t →
      truthyStr i = true → truthyStr s = true → truthyStr t = true →
      (handler ⟨m, b⟩ env rc g).statusCode = 500) := by
  have hks : truthyStr env.API_KEY = false ∨ truthyStr env.RECAPTCHA_SECRET = false := by
    rcases hsec with h | h
    · exact Or.inl (by simp [h, truthyStr])
    · exact Or.inr (by simp [h, truthyStr])
  by_cases hm : m = "POST"
  · subst hm
    cases b with
    | malformed msg => simp [handler]
    | fields i s t =>
      by_cases hi : truthyStr i = true <;> by_cases hs : truthyStr s = true <;>
        by_cases ht : truthyStr t = true <;> rcases hks with hk | hk <;>
        simp_all [handler]
  · simp [handler, hm]

/-- C3 (amended) witness: with the generation API key unset and a fully
valid POST payload, the handler returns 500 and calls no external
service. -/
theorem C3_amended_witness :
    (handler ⟨"POST", goodFields⟩ envNoKey rcOK genOK).calledVerification = false ∧
    (handler ⟨"POST", goodFields⟩ envNoKey rcOK genOK).calledGeneration = false ∧
    (handler ⟨"POST", goodFields⟩ envNoKey rcOK genOK).statusCode = 500 := by
  have h := C3_amended "POST" goodFields envNoKey rcOK genOK (Or.inl rfl)
  exact ⟨h.1, h.2.1,
    h.2.2 (some "Hello world") (some "pirate") (some "abc") rfl rfl
      (by decide) (by decide) (by decide)⟩

/-- C4: counterexample.  The claim asks for 200 whenever the OK response
has "at least one candidate whose content has at least one part with a
non-empty text field", but the source reads only the FIRST part of the
FIRST candidate: here the first part has empty text and the second part
holds non-empty text, yet the handler returns 500, not 200. -/
theorem C4_counterexample :
    genEmptyThenGood.ok = true ∧
    genEmptyThenGood.result.candidates =
      some [⟨some ⟨some [⟨some ""⟩, ⟨some "Ahoy, world!"⟩]⟩⟩] ∧
    (Part.mk (some "Ahoy, world!") ∈ [Part.mk (some ""), Part.mk (some "Ahoy, world!")] ∧
      "Ahoy, world!" ≠ "") ∧
    (handler evOK envOK rcOK genEmptyThenGood).statusCode = 500 ∧
    (handler evOK envOK rcOK genEmptyThenGood).statusCode ≠ 200 := by
  refine ⟨rfl, rfl, ⟨?_, ?_⟩, ?_, ?_⟩ <;> decide

/-- C4 (amended): for every POST with all three fields truthy and both
secrets configured, if verification reports `success=true` with score
above 0.5 and the generation service returns OK with a FIRST candidate
whose content's FIRST part carries a non-empty text, the handler returns
200 with body exactly `JSON.stringify({reformulatedText: text})` — the
whole result is determined by that text, so no other upstream data is
relayed. -/
theorem C4_amended (i s t : Option String) (env : Env) (rc : RecaptchaData)
    (g : GenResponse) (c : Candidate) (cs : List Candidate) (ct : Content)
    (p : Part) (ps : List Part) (txt : String) (q : ℚ)
    (hi : truthyStr i = true) (hs : truthyStr s = true) (ht : truthyStr t = true)
    (hk : truthyStr env.API_KEY = true) (hr : truthyStr env.RECAPTCHA_SECRET = true)
    (hsucc : rc.success = some true) (hq : rc.score = some q) (hgt : mkRat 1 2 < q)
    (hok : g.ok = true)
    (hcand : g.result.candidates = some (c :: cs)) (hct : c.content = some ct)
    (hparts : ct.parts = some (p :: ps)) (htext : p.text = some txt) (hne : txt ≠ "") :
    handler ⟨"POST", .fields i s t⟩ env rc g =
      ⟨200, stringifyReformulated txt, true, true⟩ := by
  have hsb : truthyBool rc.success = true := by simp [truthyBool, hsucc]
  have hsc : scoreLtHalf rc.score = false := by
    rw [hq]
    simp only [scoreLtHalf, decide_eq_false_iff_not, not_lt]
    exact hgt.le
  have hex := extractText_valid g.result c cs ct p ps txt hcand hct hparts htext hne
  simp [handler, hi, hs, ht, hk, hr, hsb, hsc, hok, hex]

/-- C4 (amended) witness: the spec's concrete scenario — payload
`{inputText:"Hello world", style:"pirate", token:"abc"}`, secrets
present, verification `{success:true, score:0.9}`, one candidate with
text "Ahoy, world!" — yields 200 with body
`{"reformulatedText":"Ahoy, world!"}`. -/
theorem C4_amended_witness :
    handler ⟨"POST", ParsedBody.fields (some "Hello world") (some "pirate") (some "abc")⟩
        envOK rcOK genOK =
      ⟨200, "\x7b\"reformulatedText\":\"Ahoy, world!\"\x7d", true, true⟩ := by
  have h := C4_amended (some "Hello world") (some "pirate") (some "abc") envOK rcOK genOK
    ⟨some ⟨some [⟨some "Ahoy, world!"⟩]⟩⟩ [] ⟨some [⟨some "Ahoy, world!"⟩]⟩
    ⟨some "Ahoy, world!"⟩ [] "Ahoy, world!" (mkRat 9 10)
    (by decide) (by decide) (by decide) (by decide) (by decide)
    rfl rfl (by decide) rfl rfl rfl rfl rfl (by decide)
  rw [h]
  decide

/-- C5: for every run that reaches the generation call, if the generation
service answers with a non-OK status, the handler's status equals the
upstream status, its body is the short message built from the upstream
status text, and the outcome is independent of the raw upstream error
body (which is only logged, never relayed). -/
theorem C5_upstream_error (i s t : Option String) (env : Env) (rc : RecaptchaData)
    (g : GenResponse)
    (hi : truthyStr i = true) (hs : truthyStr s = true) (ht : truthyStr t = true)
    (hk : truthyStr env.API_KEY = true) (hr : truthyStr env.RECAPTCHA_SECRET = true)
    (hsucc : truthyBool rc.success = true) (hsc : scoreLtHalf rc.score = false)
    (hok : g.ok = false) :
    (handler ⟨"POST", .fields i s t⟩ env rc g).statusCode = g.status ∧
    (handler ⟨"POST", .fields i s t⟩ env rc g).body = "Google AI Error: " ++ g.statusText ∧
    ∀ rawBody : String,
      handler ⟨"POST", .fields i s t⟩ env rc ⟨g.ok, g.status, g.statusText, rawBody, g.result⟩ =
        handler ⟨"POST", .fields i s t⟩ env rc g := by
  refine ⟨?_, ?_, fun rawBody => ?_⟩ <;> simp [handler, hi, hs, ht, hk, hr, hsucc, hsc, hok]

/-- C5 witness: a 429 "Too Many Requests" from the generation service is
relayed as status 429 with body "Google AI Error: Too Many Requests",
independently of the upstream error body. -/
theorem C5_upstream_error_witness :
    (handler ⟨"POST", ParsedBody.fields (some "Hello world") (some "pirate") (some "abc")⟩
        envOK rcOK gen429).statusCode = 429 ∧
    (handler ⟨"POST", ParsedBody.fields (some "Hello world") (some "pirate") (some "abc")⟩
        envOK rcOK gen429).body = "Google AI Error: " ++ "Too Many Requests" ∧
    ∀ rawBody : String,
      handler ⟨"POST", ParsedBody.fields (some "Hello world") (some "pirate") (some "abc")⟩
          envOK rcOK ⟨gen429.ok, gen429.status, gen429.statusText, rawBody, gen429.result⟩ =
        handler ⟨"POST", ParsedBody.fields (some "Hello world") (some "pirate") (some "abc")⟩
          envOK rcOK gen429 := by
  have h := C5_upstream_error (some "Hello world") (some "pirate") (some "abc") envOK rcOK gen429
    (by decide) (by decide) (by decide) (by decide) (by decide) (by decide) (by decide) rfl
  exact ⟨h.1, h.2.1, h.2.2⟩

/-- C6: counterexample.  The claim covers an OK response "with no first
candidate", but when `candidates` is a present EMPTY array, the guard
`!result.candidates` does not fire (an empty array is truthy) and
`candidates[0].content` throws a `TypeError`: the catch-all answers 500
with a JSON `{"error": ...}` body, NOT the body
"Invalid response from Google AI.". -/
theorem C6_counterexample :
    genEmptyCandidates.ok = true ∧
    genEmptyCandidates.result.candidates = some [] ∧
    (handler evOK envOK rcOK genEmptyCandidates).statusCode = 500 ∧
    (handler evOK envOK rcOK genEmptyCandidates).body ≠ "Invalid response from Google AI." ∧
    (handler evOK envOK rcOK genEmptyCandidates).body =
      stringifyError "Cannot read properties of undefined (reading \x27content\x27)" := by
  refine ⟨rfl, rfl, ?_, ?_, ?_⟩ <;> decide

/-- C6 (amended): for every run reaching the generation call whose OK
JSON either lacks a `candidates` array, or has a first candidate lacking
`content`, `parts`, a first part, or a `text` field, the handler returns
500 with body "Invalid response from Google AI."; a present but EMPTY
`candidates` array instead throws and is answered by the catch-all (500
with a JSON error body).  Server-side logging is outside this model. -/
theorem C6_amended (i s t : Option String) (env : Env) (rc : RecaptchaData)
    (g : GenResponse)
    (hi : truthyStr i = true) (hs : truthyStr s = true) (ht : truthyStr t = true)
    (hk : truthyStr env.API_KEY = true) (hr : truthyStr env.RECAPTCHA_SECRET = true)
    (hsucc : truthyBool rc.success = true) (hsc : scoreLtHalf rc.score = false)
    (hok : g.ok = true)
    (hshape : g.result.candidates = none ∨
      ∃ c cs, g.result.candidates = some (c :: cs) ∧
        (c.content = none ∨ ∃ ct, c.content = some ct ∧
          (ct.parts = none ∨ ct.parts = some [] ∨
           ∃ p ps, ct.parts = some (p :: ps) ∧ p.text = none))) :
    handler ⟨"POST", .fields i s t⟩ env rc g =
      ⟨500, "Invalid response from Google AI.", true, true⟩ := by
  have hex := extractText_invalid_of_shape g.result hshape
  simp [handler, hi, hs, ht, hk, hr, hsucc, hsc, hok, hex]

/-- C6 (amended) witness: an OK generation response whose JSON has no
`candidates` field at all is answered with 500 and the body
"Invalid response from Google AI.". -/
theorem C6_amended_witness :
    handler ⟨"POST", ParsedBody.fields (some "Hello world") (some "pirate") (some "abc")⟩
        envOK rcOK genNoCandidates =
      ⟨500, "Invalid response from Google AI.", true, true⟩ :=
  C6_amended (some "Hello world") (some "pirate") (some "abc") envOK rcOK genNoCandidates
    (by decide) (by decide) (by decide) (by decide) (by decide) (by decide) (by decide)
    rfl (Or.inl rfl)

/-- C7: for every inbound request whose method is not POST, the handler
returns exactly 405 "Method Not Allowed" with no external call, and the
outcome is independent of the request body (the body is never parsed). -/
theorem C7_method_not_allowed (m : String) (b : ParsedBody) (env : Env)
    (rc : RecaptchaData) (g : GenResponse) (hm : m ≠ "POST") :
    handler ⟨m, b⟩ env rc g = ⟨405, "Method Not Allowed", false, false⟩ ∧
    ∀ b2 : ParsedBody, handler ⟨m, b2⟩ env rc g = handler ⟨m, b⟩ env rc g := by
  refine ⟨?_, fun b2 => ?_⟩ <;> simp [handler, hm]

/-- C7 witness: a GET request (even one whose body would not parse) gets
405 with no external calls, identically for any body. -/
theorem C7_method_not_allowed_witness :
    handler ⟨"GET", goodFields⟩ envOK rcOK genOK =
      ⟨405, "Method Not Allowed", false, false⟩ ∧
    ∀ b2 : ParsedBody, handler ⟨"GET", b2⟩ envOK rcOK genOK =
      handler ⟨"GET", goodFields⟩ envOK rcOK genOK :=
  C7_method_not_allowed "GET" goodFields envOK rcOK genOK (by decide)

/-- C8: for every POST whose JSON body carries all three keys but where
`inputText`, `style` or `token` is the empty string, the falsy-check
`!inputText || !style || !token` fires: 400, and no external call is
made, even though no field is absent. -/
theorem C8_empty_field (i s t : String) (env : Env) (rc : RecaptchaData)
    (g : GenResponse) (hempty : i = "" ∨ s = "" ∨ t = "") :
    (handler ⟨"POST", .fields (some i) (some s) (some t)⟩ env rc g).statusCode = 400 ∧
    (handler ⟨"POST", .fields (some i) (some s) (some t)⟩ env rc g).calledVerification = false ∧
    (handler ⟨"POST", .fields (some i) (some s) (some t)⟩ env rc g).calledGeneration = false := by
  rcases hempty with rfl | rfl | rfl <;> simp [handler, truthyStr]

/-- C8 witness: `{inputText:"", style:"pirate", token:"abc"}` — all keys
present, `inputText` empty — is answered with 400 and no external call. -/
theorem C8_empty_field_witness :
    (handler ⟨"POST", .fields (some "") (some "pirate") (some "abc")⟩
        envOK rcOK genOK).statusCode = 400 ∧
    (handler ⟨"POST", .fields (some "") (some "pirate") (some "abc")⟩
        envOK rcOK genOK).calledVerification = false ∧
    (handler ⟨"POST", .fields (some "") (some "pirate") (some "abc")⟩
        envOK rcOK genOK).calledGeneration = false :=
  C8_empty_field "" "pirate" "abc" envOK rcOK genOK (Or.inl rfl)

/-- C9: for every run reaching verification whose response has
`success=true` and NO `score` field, the JavaScript comparison
`undefined < 0.5` is false, so the verification is accepted: the
generation service is called, and the handler can only answer 403 by
relaying an upstream 403 from a failed generation call, never as the
verification rejection. -/
theorem C9_missing_score (i s t : Option String) (env : Env) (rc : RecaptchaData)
    (g : GenResponse)
    (hi : truthyStr i = true) (hs : truthyStr s = true) (ht : truthyStr t = true)
    (hk : truthyStr env.API_KEY = true) (hr : truthyStr env.RECAPTCHA_SECRET = true)
    (hsucc : rc.success = some true) (hnoscore : rc.score = none) :
    (handler ⟨"POST", .fields i s t⟩ env rc g).calledGeneration = true ∧
    ((handler ⟨"POST", .fields i s t⟩ env rc g).statusCode = 403 →
      g.ok = false ∧ g.status = 403) := by
  have hsb : truthyBool rc.success = true := by simp [truthyBool, hsucc]
  have hsc : scoreLtHalf rc.score = false := by simp [scoreLtHalf, hnoscore]
  by_cases hok : g.ok = true
  · cases hex : extractText g.result <;>
      simp [handler, hi, hs, ht, hk, hr, hsb, hsc, hok, hex]
  · have hok2 : g.ok = false := by simpa using hok
    simp [handler, hi, hs, ht, hk, hr, hsb, hsc, hok2]

/-- C9 witness: `{success:true}` with no score on an otherwise valid
request proceeds to the generation call (which here succeeds, so the
403-implication holds vacuously). -/
theorem C9_missing_score_witness :
    (handler ⟨"POST", ParsedBody.fields (some "Hello world") (some "pirate") (some "abc")⟩
        envOK rcNoScore genOK).calledGeneration = true ∧
    ((handler ⟨"POST", ParsedBody.fields (some "Hello world") (some "pirate") (some "abc")⟩
        envOK rcNoScore genOK).statusCode = 403 →
      genOK.ok = false ∧ genOK.status = 403) :=
  C9_missing_score (some "Hello world") (some "pirate") (some "abc") envOK rcNoScore genOK
    (by decide) (by decide) (by decide) (by decide) (by decide) rfl rfl

/-- C10: for every run reaching the generation call whose OK JSON has a
first candidate whose content's first part carries `text` equal to the
empty string, the empty string is falsy, so the shape guard fires: 500
with body "Invalid response from Google AI.", not 200 with an empty
reformulatedText. -/
theorem C10_empty_text (i s t : Option String) (env : Env) (rc : RecaptchaData)
    (g : GenResponse) (c : Candidate) (cs : List Candidate) (ct : Content)
    (p : Part) (ps : List Part)
    (hi : truthyStr i = true) (hs : truthyStr s = true) (ht : truthyStr t = true)
    (hk : truthyStr env.API_KEY = true) (hr : truthyStr env.RECAPTCHA_SECRET = true)
    (hsucc : truthyBool rc.success = true) (hsc : scoreLtHalf rc.score = false)
    (hok : g.ok = true)
    (hcand : g.result.candidates = some (c :: cs)) (hct : c.content = some ct)
    (hparts : ct.parts = some (p :: ps)) (htext : p.text = some "") :
    handler ⟨"POST", .fields i s t⟩ env rc g =
      ⟨500, "Invalid response from Google AI.", true, true⟩ ∧
    (handler ⟨"POST", .fields i s t⟩ env rc g).statusCode ≠ 200 := by
  have hex : extractText g.result = .invalid := by
    simp [extractText, hcand, hct, hparts, htext]
  constructor
  · simp [handler, hi, hs, ht, hk, hr, hsucc, hsc, hok, hex]
  · simp [handler, hi, hs, ht, hk, hr, hsucc, hsc, hok, hex]

/-- C10 witness: an OK generation response whose only part has empty
`text` yields 500 "Invalid response from Google AI.", not 200. -/
theorem C10_empty_text_witness :
    handler ⟨"POST", ParsedBody.fields (some "Hello world") (some "pirate") (some "abc")⟩
        envOK rcOK genEmptyText =
      ⟨500, "Invalid response from Google AI.", true, true⟩ ∧
    (handler ⟨"POST", ParsedBody.fields (some "Hello world") (some "pirate") (some "abc")⟩
        envOK rcOK genEmptyText).statusCode ≠ 200 :=
  C10_empty_text (some "Hello world") (some "pirate") (some "abc") envOK rcOK genEmptyText
    ⟨some ⟨some [⟨some ""⟩]⟩⟩ [] ⟨some [⟨some ""⟩]⟩ ⟨some ""⟩ []
    (by decide) (by decide) (by decide) (by decide) (by decide) (by decide) (by decide)
    rfl rfl rfl rfl rfl

end GetReformulation
